import Mathlib

/-
Verification of the flask-expense-tracker core logic (src/app.py) against its
natural-language specification.

Shallow embedding conventions:
* Currency amounts are modelled as rationals (ℚ); Python `round(x, 2)` and the
  `"{:.2f}"` / `"{:.1f}"` format specifiers round half-to-even, modelled by
  `rhe` below.
* pandas operations are modelled element-wise on lists:
  `pd.to_datetime(..., errors="coerce").dt.to_period("M").astype(str)` maps an
  unparseable date to the literal string "NaT" (str(pd.NaT) = "NaT"), which is
  NOT missing data afterwards; `Series.max` / `sorted` on strings are
  code-point lexicographic; `groupby` lists group keys in ascending order.
* The external OpenAI call is abstracted by a `SvcOutcome` parameter giving the
  outcome the service would produce (returned text or raised exception); the
  generator and route logic around it is translated from the source.
-/

-- ---------------------------------------------------------------------------
-- String helpers (code-point lexicographic order, substring test)
-- ---------------------------------------------------------------------------

/-- Lexicographic strict order on char lists (Python string `<`). -/
def lexLt : List Char → List Char → Bool
  | [], [] => false
  | [], _ :: _ => true
  | _ :: _, [] => false
  | a :: as, b :: bs => if a < b then true else if b < a then false else lexLt as bs

/-- Python-style string comparison `a < b`. -/
def strLt (a b : String) : Bool := lexLt a.data b.data

/-- Python-style string comparison `a <= b`. -/
def strLe (a b : String) : Bool := strLt a b || a == b

/-- Binary maximum of strings, as used by `Series.max` on string data. -/
def maxS (a b : String) : String := if strLt a b then b else a

/-- Does `hay` start with `needle`? -/
def startsWithL : List Char → List Char → Bool
  | _, [] => true
  | [], _ :: _ => false
  | a :: as, b :: bs => a == b && startsWithL as bs

/-- Does `needle` occur in `hay`? (Python `needle in hay`). -/
def hasSubL (needle : List Char) : List Char → Bool
  | [] => startsWithL [] needle
  | c :: t => startsWithL (c :: t) needle || hasSubL needle t

/-- Python substring test `needle in hay` on strings. -/
def strHas (hay needle : String) : Bool := hasSubL needle.data hay.data

/-- Python `str.strip()` (whitespace from both ends), also the stripping
`float(...)` performs on its argument. -/
def pyStrip (s : String) : String :=
  String.mk (((s.data.dropWhile Char.isWhitespace).reverse.dropWhile
    Char.isWhitespace).reverse)

/-- Python `str.lower()` for the ASCII range. -/
def lowerStr (s : String) : String := String.mk (s.data.map Char.toLower)

/-- Stable insertion of `a` into a list, before the first element `b` with
`le a b`. -/
def insertLe {α : Type} (le : α → α → Bool) (a : α) : List α → List α
  | [] => [a]
  | b :: t => if le a b then a :: b :: t else b :: insertLe le a t

/-- Stable insertion sort with respect to a boolean `le`. -/
def sortByLe {α : Type} (le : α → α → Bool) : List α → List α
  | [] => []
  | a :: t => insertLe le a (sortByLe le t)

-- ---------------------------------------------------------------------------
-- Half-to-even rounding and fixed-point formatting (Python round / "{:.nf}")
-- ---------------------------------------------------------------------------

/-- Round a rational to the nearest integer, ties to even (Python `round`,
also the rounding used by the `"{:.nf}"` format specifiers). -/
def rhe (q : ℚ) : ℤ :=
  let f := ⌊q⌋
  let r := q - (f : ℚ)
  if r < 1 / 2 then f else if 1 / 2 < r then f + 1 else if f % 2 = 0 then f else f + 1

/-- Python `round(q, 2)`. -/
def round2 (q : ℚ) : ℚ := (rhe (q * 100) : ℚ) / 100

/-- Left-pad a string with zeros to width `w`. -/
def padZeros (w : ℕ) (s : String) : String :=
  String.mk (List.replicate (w - s.length) '0') ++ s

/-- Python `"{:.prec f}".format q` for non-negative-relevant uses: fixed-point
decimal with `prec` fractional digits, half-to-even rounding. -/
def fmtFixed (prec : ℕ) (q : ℚ) : String :=
  let n := rhe (q * ((10 : ℚ) ^ prec))
  let m := n.natAbs
  (if n < 0 then "-" else "") ++
    toString (m / 10 ^ prec) ++ "." ++ padZeros prec (toString (m % 10 ^ prec))

/-- Python `"{:.2f}"`. -/
def fmt2 (q : ℚ) : String := fmtFixed 2 q

/-- Python `"{:.1f}"`. -/
def fmt1 (q : ℚ) : String := fmtFixed 1 q

-- ---------------------------------------------------------------------------
-- Date parsing (pd.to_datetime on "YYYY-MM-DD", errors="coerce")
-- ---------------------------------------------------------------------------

/-- Numeric value of a digit list (most significant first). -/
def digitsVal (l : List Char) : ℕ :=
  l.foldl (fun acc c => 10 * acc + (c.toNat - 48)) 0

/-- Leap-year test (Gregorian). -/
def isLeap (y : ℕ) : Bool := y % 4 = 0 && (y % 100 ≠ 0 || y % 400 = 0)

/-- Number of days in a month. -/
def daysInMonth (y m : ℕ) : ℕ :=
  if m = 2 then (if isLeap y then 29 else 28)
  else if m = 4 || m = 6 || m = 9 || m = 11 then 30
  else 31

/-- Parse a date string in the stored "YYYY-MM-DD" format into (year, month,
day); `none` models `pd.to_datetime(_, errors="coerce")` producing NaT. -/
def parseYMD (s : String) : Option (ℕ × ℕ × ℕ) :=
  match s.data with
  | [y1, y2, y3, y4, h1, m1, m2, h2, d1, d2] =>
    if h1 = '-' ∧ h2 = '-' ∧ (y1.isDigit ∧ y2.isDigit ∧ y3.isDigit ∧ y4.isDigit) ∧
        (m1.isDigit ∧ m2.isDigit) ∧ (d1.isDigit ∧ d2.isDigit) then
      let y := digitsVal [y1, y2, y3, y4]
      let m := digitsVal [m1, m2]
      let d := digitsVal [d1, d2]
      if 1 ≤ m ∧ m ≤ 12 ∧ 1 ≤ d ∧ d ≤ daysInMonth y m then some (y, m, d) else none
    else none
  | _ => none

/-- Month label of a date string, exactly as produced by
`pd.to_datetime(_, errors="coerce").dt.to_period("M").astype(str)`:
"YYYY-MM" for a parseable date, the literal string "NaT" otherwise. -/
def monthLabel (s : String) : String :=
  match parseYMD s with
  | some (y, m, _) => padZeros 4 (toString y) ++ "-" ++ padZeros 2 (toString m)
  | none => "NaT"

-- ---------------------------------------------------------------------------
-- Data model (SQLAlchemy rows of src/app.py)
-- ---------------------------------------------------------------------------

/-- A `Transaction` row. -/
structure Tx where
  id : ℕ
  userId : ℕ
  date : String
  description : String
  category : String
  amount : ℚ
deriving DecidableEq, Repr

/-- A `Goal` row. -/
structure GoalRow where
  id : ℕ
  userId : ℕ
  month : String
  category : String
  goal : ℚ
deriving DecidableEq, Repr

/-- An `AIInsight` cache row; `createdAt` is a UTC timestamp in seconds. -/
structure CacheRow where
  userId : ℕ
  month : String
  text : String
  createdAt : ℤ
deriving DecidableEq, Repr

/-- The persistent store: transaction and goal tables with autoincrement
counters, plus the insight cache table. -/
structure DB where
  txs : List Tx
  goals : List GoalRow
  cache : List CacheRow
  nextTxId : ℕ
  nextGoalId : ℕ
deriving DecidableEq, Repr

-- ---------------------------------------------------------------------------
-- Money validation (_parse_money, src/app.py lines 98-117)
-- ---------------------------------------------------------------------------

/-- Result of Python `float(s)`: a finite rational, an infinity, or NaN. -/
inductive PyNum where
  | fin (q : ℚ)
  | infVal
  | nanVal
deriving DecidableEq, Repr

/-- Take the leading digit run of a char list. -/
def spanDigits (l : List Char) : List Char × List Char :=
  (l.takeWhile Char.isDigit, l.dropWhile Char.isDigit)

/-- Build the rational `(ip.fp) * 10^ex` from digit lists and an exponent. -/
def decValue (sgn : ℤ) (ip fp : List Char) (ex : ℤ) : ℚ :=
  (sgn : ℚ) * ((digitsVal ip : ℚ) + (digitsVal fp : ℚ) / (10 : ℚ) ^ fp.length) *
    (10 : ℚ) ^ ex

/-- Parse the decimal-literal part of a Python float (after sign removal):
`digits* [. digits*] [(e|E) [sign] digits+]`, at least one mantissa digit. -/
def parseDecLit (sgn : ℤ) (l : List Char) : Option PyNum :=
  let (ip, r1) := spanDigits l
  let (fp, r2) := match r1 with
    | '.' :: r => spanDigits r
    | _ => ([], r1)
  if ip = [] ∧ fp = [] then none
  else
    match r2 with
    | [] => some (PyNum.fin (decValue sgn ip fp 0))
    | e :: r3 =>
      if e = 'e' ∨ e = 'E' then
        let (esgn, r4) : ℤ × List Char := match r3 with
          | '+' :: r => (1, r)
          | '-' :: r => (-1, r)
          | r => (1, r)
        let (ed, r5) := spanDigits r4
        if ed = [] ∨ r5 ≠ [] then none
        else some (PyNum.fin (decValue sgn ip fp (esgn * (digitsVal ed : ℤ))))
      else none

/-- Model of Python `float(s)`: strips whitespace, handles an optional sign,
the special spellings inf/infinity/nan (case-insensitive), and decimal
literals with optional fraction and exponent; `none` models `ValueError`.
(Digit-group underscores are not modelled; exact rational arithmetic stands
in for binary floating point.) -/
def pyFloat (s : String) : Option PyNum :=
  let t := pyStrip s
  let (sgn, rest) : ℤ × List Char := match t.data with
    | '+' :: r => (1, r)
    | '-' :: r => (-1, r)
    | r => (1, r)
  let low := rest.map Char.toLower
  if low = "inf".data ∨ low = "infinity".data then some PyNum.infVal
  else if low = "nan".data then some PyNum.nanVal
  else parseDecLit sgn rest

/-- Checks of `_parse_money` applied to the result of `float(value_str)`:
non-finite, negative and over-large values are rejected in that order, an
accepted value is returned as `round(val, 2)`. -/
def parseMoneyNum (label : String) : Option PyNum → Except String ℚ
  | none => Except.error (label ++ " must be a number.")
  | some PyNum.infVal => Except.error (label ++ " must be a finite number.")
  | some PyNum.nanVal => Except.error (label ++ " must be a finite number.")
  | some (PyNum.fin v) =>
    if v < 0 then Except.error (label ++ " cannot be negative.")
    else if 10000000 < |v| then
      Except.error (label ++ " is unreasonably large (>10,000,000).")
    else Except.ok (round2 v)

/-- Translation of `_parse_money(value_str, field_label)` with the default
bound `max_abs = 1e7`: `Except.error msg` models `flash(msg); return None`,
`Except.ok v` models returning `round(val, 2)`. -/
def parseMoney (label : String) : Option String → Except String ℚ
  | none => Except.error (label ++ " is required.")
  | some s =>
    if pyStrip s = "" then Except.error (label ++ " is required.")
    else parseMoneyNum label (pyFloat s)

-- ---------------------------------------------------------------------------
-- Aggregator (index route, src/app.py lines 384-391)
-- ---------------------------------------------------------------------------

/-- Grouping key of a transaction: its derived month label (which is the
string "NaT" for an unparseable date) and its category. -/
def keyOf (t : Tx) : String × String := (monthLabel t.date, t.category)

/-- Ascending order on (month, category) keys, as `groupby` lists them. -/
def pairLe (a b : String × String) : Bool :=
  strLt a.1 b.1 || (a.1 == b.1 && strLe a.2 b.2)

/-- The distinct grouping keys of a transaction list, in ascending order. -/
def aggKeys (txs : List Tx) : List (String × String) :=
  sortByLe pairLe (txs.map keyOf).dedup

/-- Total amount of the transactions with grouping key `k`. -/
def keySum (txs : List Tx) (k : String × String) : ℚ :=
  ((txs.filter (fun t => keyOf t == k)).map Tx.amount).sum

/-- Translation of the `monthly_totals` computation: after deriving Month
(`"NaT"` for unparseable dates — note that `.dropna(subset=["Month"])` drops
nothing, because `astype(str)` already turned NaT into the string "NaT"),
group by (Month, Category) and sum the amounts. -/
def monthlyTotals (txs : List Tx) : List ((String × String) × ℚ) :=
  (aggKeys txs).map (fun k => (k, keySum txs k))

/-- Lookup of a (month, category) key in the aggregated mapping. -/
def mtLookup (mt : List ((String × String) × ℚ)) (k : String × String) : Option ℚ :=
  (mt.find? (fun p => p.1 == k)).map Prod.snd

/-- The aggregated actual for a key, `0` when absent (left-merge + fillna(0)). -/
def actualOf (txs : List Tx) (k : String × String) : ℚ :=
  (mtLookup (monthlyTotals txs) k).getD 0

-- ---------------------------------------------------------------------------
-- Budget comparison (index route, src/app.py lines 393-401)
-- ---------------------------------------------------------------------------

/-- One row of the comparison table. -/
structure CompRow where
  goalId : ℕ
  month : String
  category : String
  goalAmt : ℚ
  actualAmt : ℚ
  remaining : ℚ
  status : String
deriving DecidableEq, Repr

/-- Placeholder row for out-of-range indexing. -/
def rowDefault : CompRow :=
  { goalId := 0, month := "", category := "", goalAmt := 0, actualAmt := 0,
    remaining := 0, status := "" }

/-- The comparison row a single goal produces: left-merge lookup of the
actual (NaN→0), both columns rounded to 2 decimals, `Remaining` their rounded
difference, `Status` from the sign of `Remaining`. -/
def compRow (mt : List ((String × String) × ℚ)) (g : GoalRow) : CompRow :=
  let actualRaw := (mtLookup mt (g.month, g.category)).getD 0
  let actualAmt := round2 actualRaw
  let goalAmt := round2 g.goal
  let remaining := round2 (goalAmt - actualAmt)
  { goalId := g.id, month := g.month, category := g.category,
    goalAmt := goalAmt, actualAmt := actualAmt, remaining := remaining,
    status := if 0 ≤ remaining then "Under Budget" else "Over Budget" }

/-- Translation of the comparison table: `pd.merge(goals, monthly_totals,
how="left", on=["Month","Category"])` followed by the fillna/round/status
columns — one row per goal, in goal order. -/
def comparisonRows (goals : List GoalRow) (mt : List ((String × String) × ℚ)) :
    List CompRow :=
  goals.map (compRow mt)

-- ---------------------------------------------------------------------------
-- Insight generator (_call_openai / _generate_ai_insights, lines 146-244)
-- ---------------------------------------------------------------------------

/-- Outcome the external text-generation service would produce for the call:
either a returned message content or a raised exception (with its class being
`RuntimeError` or not, and its message string). -/
inductive SvcOutcome where
  | ok (text : String)
  | raise (isRuntimeError : Bool) (msg : String)
deriving DecidableEq, Repr

/-- A Python exception as the generator observes it: class (RuntimeError or
not) and message. -/
structure PyExc where
  isRuntimeError : Bool
  msg : String
deriving DecidableEq, Repr

/-- Translation of `_call_openai`: with the SDK missing or no API key it
raises `RuntimeError("OpenAI SDK missing or OPENAI_API_KEY not set.")` before
contacting the service; a service exception whose text mentions
`insufficient_quota` or `exceeded your current quota` is re-raised as
`RuntimeError("AI quota exceeded")`; any other service exception propagates
unchanged; a successful response is returned `.strip()`ped. -/
def callOpenai (sdk key : Bool) (svc : SvcOutcome) : Except PyExc String :=
  if !sdk || !key then
    Except.error { isRuntimeError := true,
                   msg := "OpenAI SDK missing or OPENAI_API_KEY not set." }
  else
    match svc with
    | SvcOutcome.ok t => Except.ok (pyStrip t)
    | SvcOutcome.raise rt m =>
      if strHas m "insufficient_quota" || strHas m "exceeded your current quota" then
        Except.error { isRuntimeError := true, msg := "AI quota exceeded" }
      else
        Except.error { isRuntimeError := rt, msg := m }

/-- Total of all transaction amounts (`df["Amount"].sum()`). -/
def sumAmts (txs : List Tx) : ℚ := (txs.map Tx.amount).sum

/-- Distinct categories in ascending order (`groupby("Category")` key order). -/
def catKeys (txs : List Tx) : List String :=
  sortByLe strLe (txs.map Tx.category).dedup

/-- Total amount recorded under one category. -/
def catSum (txs : List Tx) (c : String) : ℚ :=
  ((txs.filter (fun t => t.category == c)).map Tx.amount).sum

/-- Translation of `_build_spending_summary`'s `by_cat`: per-category totals
sorted by amount descending. -/
def byCat (txs : List Tx) : List (String × ℚ) :=
  sortByLe (fun a b => decide (b.2 ≤ a.2)) ((catKeys txs).map (fun c => (c, catSum txs c)))

/-- Total spending as summed over the per-category table. -/
def byCatTotal (txs : List Tx) : ℚ := ((byCat txs).map Prod.snd).sum

/-- Distinct month labels of the transactions in ascending order (the
fallback's `sorted(mt["Month"].unique())`); note an unparseable date yields
the label "NaT", which sorts after every "YYYY-MM" label. -/
def monthKeys (txs : List Tx) : List String :=
  sortByLe strLe (txs.map (fun t => monthLabel t.date)).dedup

/-- Total amount recorded under one month label. -/
def monthSum (txs : List Tx) (m : String) : ℚ :=
  ((txs.filter (fun t => monthLabel t.date == m)).map Tx.amount).sum

/-- The fallback's `sorted(mt["Month"].unique())[-2:]`: the last two of the
ascending distinct month labels. -/
def lastTwoMonths (txs : List Tx) : List String :=
  (monthKeys txs).drop ((monthKeys txs).length - 2)

/-- The trend sentence for the month pair `m1` (previous), `m2` (latest):
`delta = s2 - s1`, `pct = delta / s1 * 100` (`0` when `s1` is zero), with the
direction determined by the sign of `delta`. -/
def trendOf (txs : List Tx) (m1 m2 : String) : String :=
  let s1 := monthSum txs m1
  let s2 := monthSum txs m2
  let delta := s2 - s1
  let pct := if s1 ≠ 0 then delta / s1 * 100 else 0
  let dir := if 0 < delta then "up" else if delta < 0 then "down" else "flat"
  "Spending is " ++ dir ++ " " ++ fmt1 |pct| ++ "% vs " ++ m1 ++ "."

/-- Translation of the fallback's third tip (lines 228-241): take the last
two distinct month labels; with exactly two, report the month-over-month
trend, otherwise ask for more data. -/
def trendTip (txs : List Tx) : String :=
  match lastTwoMonths txs with
  | [m1, m2] => trendOf txs m1 m2
  | _ => "Add another month of data to see a trend."

/-- Translation of the deterministic fallback text (lines 222-244): top
category, per-category average and the trend tip, joined as a bullet list. -/
def fallbackText (txs : List Tx) : String :=
  let bc := byCat txs
  let total := byCatTotal txs
  let tip1 := match bc.head? with
    | some top =>
      "Top category: " ++ top.1 ++ " at $" ++ fmt2 top.2 ++
        ". Consider setting a tighter goal."
    | none => "Review your top categories to identify quick savings."
  let avg := total / (max bc.length 1 : ℚ)
  let tip2 := "Average per category: $" ++ fmt2 avg ++
    ". Target categories above average for reductions."
  let tip3 := trendTip txs
  "• " ++ tip1 ++ "\n• " ++ tip2 ++ "\n• " ++ tip3

/-- The fixed message for an empty or zero-total transaction set. -/
def noDataMsg : String := "No spending data yet—add a few transactions to see insights."

/-- The user notice flashed on a quota failure. -/
def quotaNotice : String := "AI quota exceeded — showing basic insights instead."

/-- The user notice flashed on any other generation failure. -/
def unavailNotice : String := "AI service unavailable — showing basic insights instead."

/-- Result of `_generate_ai_insights`: the returned text, the flashed notice
(if any), and whether the external service was actually contacted. -/
structure GenOut where
  text : String
  flash : Option String
  svcContacted : Bool
deriving DecidableEq, Repr

/-- Translation of `_generate_ai_insights`: empty data or non-positive total
returns the fixed no-data message; otherwise the OpenAI call is attempted and
any failure is caught — a caught `RuntimeError` whose text contains
"quota exceeded" (lower-cased) flashes the quota notice, every other caught
exception flashes the generic notice — and the deterministic fallback text is
returned instead. (The prompt built from the category summary is passed to
the service opaquely, so it is not reproduced here; the service's behaviour
is the `svc` parameter.) -/
def generateAI (sdk key : Bool) (svc : SvcOutcome) (txs : List Tx) : GenOut :=
  if txs.isEmpty || sumAmts txs ≤ 0 then
    { text := noDataMsg, flash := none, svcContacted := false }
  else
    match callOpenai sdk key svc with
    | Except.ok t => { text := t, flash := none, svcContacted := sdk && key }
    | Except.error e =>
      let notice :=
        if e.isRuntimeError && strHas (lowerStr e.msg) "quota exceeded" then quotaNotice
        else unavailNotice
      { text := fallbackText txs, flash := some notice, svcContacted := sdk && key }

-- ---------------------------------------------------------------------------
-- Insights route (src/app.py lines 416-449)
-- ---------------------------------------------------------------------------

/-- Most recent cache row of a list (`order_by(created_at.desc()).first()`);
on ties the earlier row is kept. -/
def mostRecent : List CacheRow → Option CacheRow
  | [] => none
  | c :: t =>
    match mostRecent t with
    | none => some c
    | some d => if c.createdAt < d.createdAt then some d else some c

/-- The "latest month" of a non-empty transaction list: `Series.max` of the
derived month labels under string comparison. An unparseable date contributes
the label "NaT", which compares greater than every "YYYY-MM" label. -/
def maxMonth (txs : List Tx) : String :=
  let ms := txs.map (fun t => monthLabel t.date)
  ms.foldl maxS (ms.headD "")

/-- Result of the `/insights` route: updated store, the session text, whether
`_generate_ai_insights` ran, and the flashed notice if any. -/
structure RouteOut where
  db : DB
  text : String
  genInvoked : Bool
  flash : Option String
deriving DecidableEq, Repr

/-- Translation of the `insights` route: empty data short-circuits; otherwise
the latest month is computed, and unless a forced refresh was requested the
most recent cache row for (user, month) is returned when it is younger than
24 hours (86400 s); otherwise insights are generated and (for a truthy month
string) appended to the cache. The best-effort commit's exception handler is
not modelled (no failing store here). -/
def insightsRoute (u : ℕ) (now : ℤ) (sdk key : Bool) (svc : SvcOutcome)
    (force : Bool) (db : DB) : RouteOut :=
  let txs := db.txs.filter (fun t => t.userId == u)
  if txs.isEmpty then
    { db := db, text := noDataMsg, genInvoked := false, flash := none }
  else
    let month := maxMonth txs
    let freshHit : Option CacheRow :=
      if month ≠ "" ∧ force = false then
        match mostRecent (db.cache.filter (fun c => c.userId == u && c.month == month)) with
        | some c => if now - c.createdAt < 86400 then some c else none
        | none => none
      else none
    match freshHit with
    | some c => { db := db, text := c.text, genInvoked := false, flash := none }
    | none =>
      let g := generateAI sdk key svc txs
      let db' := if month ≠ "" then
          { db with cache := db.cache ++ [{ userId := u, month := month,
                                            text := g.text, createdAt := now }] }
        else db
      { db := db', text := g.text, genInvoked := true, flash := g.flash }

-- ---------------------------------------------------------------------------
-- Mutation routes (index POST, lines 334-361; set_goal, lines 469-501)
-- ---------------------------------------------------------------------------

/-- Index of the first element satisfying `p`. -/
def firstIdx {α : Type} (p : α → Bool) : List α → Option ℕ
  | [] => none
  | a :: t => if p a then some 0 else (firstIdx p t).map (· + 1)

/-- Update the first element satisfying `p` (the `.first()` row an ORM query
returns), leaving the rest of the list unchanged. -/
def updateFirst {α : Type} (p : α → Bool) (f : α → α) : List α → List α
  | [] => []
  | a :: t => if p a then f a :: t else a :: updateFirst p f t

/-- Placeholder goal row for out-of-range indexing. -/
def goalDefault : GoalRow :=
  { id := 0, userId := 0, month := "", category := "", goal := 0 }

/-- Translation of the transaction create/update branch of the index route:
an invalid amount aborts with the validation message and no store change;
otherwise an edit id updates the owned row in place and no edit id appends a
new row. -/
def addTxRoute (u : ℕ) (db : DB) (amountStr : Option String)
    (dateStr descStr catStr : String) (editId : Option ℕ) : DB × String :=
  match parseMoney "Amount" amountStr with
  | Except.error m => (db, m)
  | Except.ok amt =>
    match editId with
    | some i =>
      let p : Tx → Bool := fun t => t.id == i && t.userId == u
      if db.txs.any p then
        let upd : Tx → Tx := fun t =>
          { t with date := dateStr, description := pyStrip descStr,
                   category := pyStrip catStr, amount := amt }
        ({ db with txs := updateFirst p upd db.txs },
         "Transaction updated successfully!")
      else (db, "")
    | none =>
      ({ db with
           txs := db.txs ++ [{ id := db.nextTxId, userId := u, date := dateStr,
                               description := pyStrip descStr,
                               category := pyStrip catStr, amount := amt }],
           nextTxId := db.nextTxId + 1 },
       "Transaction added successfully!")

/-- Matcher for the upsert branch of `set_goal`: same owner, month, category. -/
def goalKeyMatch (u : ℕ) (month cat : String) (g : GoalRow) : Bool :=
  g.userId == u && g.month == month && g.category == cat

/-- The `set_goal` branch reached once the amount has validated to `amt`:
an edit id rewrites the first owned row with that id; without an edit id the
first row matching (user, month, category) gets only its amount replaced, and
a brand-new row is appended only when none matches. -/
def setGoalApply (u : ℕ) (db : DB) (goalMonth cat : String) (amt : ℚ) :
    Option ℕ → DB × String
  | some i =>
    let p : GoalRow → Bool := fun g => g.id == i && g.userId == u
    if db.goals.any p then
      let upd : GoalRow → GoalRow := fun g =>
        { g with month := goalMonth, category := cat, goal := amt }
      ({ db with goals := updateFirst p upd db.goals },
       "Goal updated successfully!")
    else (db, "Invalid goal id.")
  | none =>
    if db.goals.any (goalKeyMatch u goalMonth cat) then
      let upd : GoalRow → GoalRow := fun g => { g with goal := amt }
      ({ db with goals := updateFirst (goalKeyMatch u goalMonth cat) upd db.goals },
       "Goal saved successfully!")
    else
      ({ db with
           goals := db.goals ++ [{ id := db.nextGoalId, userId := u,
                                   month := goalMonth, category := cat,
                                   goal := amt }],
           nextGoalId := db.nextGoalId + 1 },
       "Goal saved successfully!")

/-- Translation of the `set_goal` route: an invalid amount aborts with the
validation message and no store change; otherwise `setGoalApply` performs the
edit-by-id update or the upsert by (user, month, trimmed category). -/
def setGoalRoute (u : ℕ) (db : DB) (goalMonth goalCat : String)
    (amountStr : Option String) (editId : Option ℕ) : DB × String :=
  match parseMoney "Goal Amount" amountStr with
  | Except.error m => (db, m)
  | Except.ok amt => setGoalApply u db goalMonth (pyStrip goalCat) amt editId

-- ---------------------------------------------------------------------------
-- Sample rows used to instantiate the theorems on concrete inputs
-- ---------------------------------------------------------------------------

/-- Sample transaction: $42.50 of Food in March 2024. -/
def txFood : Tx :=
  { id := 1, userId := 1, date := "2024-03-15", description := "lunch",
    category := "Food", amount := (85 : ℚ) / 2 }

/-- Sample transaction: $100 of Food in January 2024. -/
def txJan : Tx :=
  { id := 1, userId := 1, date := "2024-01-10", description := "a",
    category := "Food", amount := 100 }

/-- Sample transaction: $150 of Food in February 2024. -/
def txFeb : Tx :=
  { id := 2, userId := 1, date := "2024-02-10", description := "b",
    category := "Food", amount := 150 }

/-- Sample transaction with an unparseable date. -/
def txBadDate : Tx :=
  { id := 3, userId := 1, date := "not-a-date", description := "c",
    category := "Food", amount := 10 }

/-- Sample goal: $100 for Food in March 2024. -/
def goalFood : GoalRow :=
  { id := 7, userId := 1, month := "2024-03", category := "Food", goal := 100 }

/-- Sample cache row under the month label "NaT". -/
def cacheNaT : CacheRow :=
  { userId := 1, month := "NaT", text := "old insight", createdAt := 500 }

/-- Sample cache row for January 2024. -/
def cacheJan : CacheRow :=
  { userId := 1, month := "2024-01", text := "january insight", createdAt := 500 }

/-- A store holding a single user-1 transaction list and goal list. -/
def mkDB (txs : List Tx) (goals : List GoalRow) (cache : List CacheRow) : DB :=
  { txs := txs, goals := goals, cache := cache, nextTxId := 100, nextGoalId := 100 }

/-- The exception `_call_openai` raises when the SDK or credential is absent. -/
def excMissing : PyExc :=
  { isRuntimeError := true, msg := "OpenAI SDK missing or OPENAI_API_KEY not set." }

/-- The exception `_call_openai` raises on a detected quota report. -/
def excQuota : PyExc := { isRuntimeError := true, msg := "AI quota exceeded" }

-- ---------------------------------------------------------------------------
-- Two-decimal values and rounding lemmas
-- ---------------------------------------------------------------------------

/-- A currency value with at most two decimal places (an integer number of
cents) — the shape every stored amount has after `_parse_money` rounding. -/
def TwoDec (x : ℚ) : Prop := ∃ n : ℤ, x = (n : ℚ) / 100

theorem rhe_intCast (n : ℤ) : rhe (n : ℚ) = n := by
  simp [rhe]

theorem twoDec_round2 {x : ℚ} (h : TwoDec x) : round2 x = x := by
  obtain ⟨n, rfl⟩ := h
  have h100 : (n : ℚ) / 100 * 100 = (n : ℚ) := by
    field_simp
  rw [round2, h100, rhe_intCast]

theorem twoDec_zero : TwoDec 0 := ⟨0, by norm_num⟩

theorem twoDec_add {a b : ℚ} (ha : TwoDec a) (hb : TwoDec b) : TwoDec (a + b) := by
  obtain ⟨m, rfl⟩ := ha
  obtain ⟨n, rfl⟩ := hb
  exact ⟨m + n, by push_cast; ring⟩

theorem twoDec_sub {a b : ℚ} (ha : TwoDec a) (hb : TwoDec b) : TwoDec (a - b) := by
  obtain ⟨m, rfl⟩ := ha
  obtain ⟨n, rfl⟩ := hb
  exact ⟨m - n, by push_cast; ring⟩

theorem twoDec_sum : ∀ (l : List ℚ), (∀ x ∈ l, TwoDec x) → TwoDec l.sum
  | [], _ => by simpa using twoDec_zero
  | a :: t, h => by
    rw [List.sum_cons]
    exact twoDec_add (h a (by simp)) (twoDec_sum t (fun x hx => h x (by simp [hx])))

theorem twoDec_keySum {txs : List Tx} (hT : ∀ t ∈ txs, TwoDec t.amount)
    (k : String × String) : TwoDec (keySum txs k) := by
  apply twoDec_sum
  intro x hx
  obtain ⟨t, ht, rfl⟩ := List.mem_map.mp hx
  exact hT t (List.mem_of_mem_filter ht)

theorem twoDec_actualOf {txs : List Tx} (hT : ∀ t ∈ txs, TwoDec t.amount)
    (k : String × String) : TwoDec (actualOf txs k) := by
  unfold actualOf mtLookup
  cases hfind : (monthlyTotals txs).find? (fun p => p.1 == k) with
  | none => simpa using twoDec_zero
  | some pr =>
    have hmem := List.mem_of_find?_eq_some hfind
    rw [monthlyTotals] at hmem
    obtain ⟨k', _, hpr⟩ := List.mem_map.mp hmem
    have h2 : pr.2 = keySum txs k' := by rw [← hpr]
    simpa [h2] using twoDec_keySum hT k'

theorem round2_zero : round2 0 = 0 := twoDec_round2 twoDec_zero

theorem comparisonRows_getD {goals : List GoalRow} {mt : List ((String × String) × ℚ)}
    {i : ℕ} (hi : i < goals.length) :
    (comparisonRows goals mt).getD i rowDefault = compRow mt (goals.get ⟨i, hi⟩) := by
  simp [comparisonRows, List.getD_eq_getElem?_getD, List.getElem?_map,
    List.getElem?_eq_getElem hi]

/-- C1: for every Goal in the comparison, the produced row satisfies
`remaining = round2 (goal_amount - actual_amount)` where the actual amount is
the aggregated monthly total looked up by (goal.month, goal.category), `0`
when absent, and the status is "Under Budget" exactly when `remaining ≥ 0`
(given that all stored amounts are two-decimal currency values, as
`_parse_money` guarantees). -/
theorem claim_C1_comparison_row (txs : List Tx) (goals : List GoalRow)
    (hT : ∀ t ∈ txs, TwoDec t.amount) (hG : ∀ g ∈ goals, TwoDec g.goal)
    (i : ℕ) (hi : i < goals.length) :
    ((comparisonRows goals (monthlyTotals txs)).getD i rowDefault).remaining =
      round2 ((goals.get ⟨i, hi⟩).goal -
        actualOf txs ((goals.get ⟨i, hi⟩).month, (goals.get ⟨i, hi⟩).category)) ∧
    (((comparisonRows goals (monthlyTotals txs)).getD i rowDefault).status =
        "Under Budget" ↔
      0 ≤ ((comparisonRows goals (monthlyTotals txs)).getD i rowDefault).remaining) := by
  have hrow := @comparisonRows_getD goals (monthlyTotals txs) i hi
  set g := goals.get ⟨i, hi⟩ with hg
  have hGg : TwoDec g.goal := hG g (List.get_mem goals i hi)
  have hA : TwoDec (actualOf txs (g.month, g.category)) := twoDec_actualOf hT _
  have e1 : round2 g.goal = g.goal := twoDec_round2 hGg
  have e2 : round2 (actualOf txs (g.month, g.category)) =
      actualOf txs (g.month, g.category) := twoDec_round2 hA
  have hact : (mtLookup (monthlyTotals txs) (g.month, g.category)).getD 0 =
      actualOf txs (g.month, g.category) := rfl
  have hrem : (compRow (monthlyTotals txs) g).remaining =
      round2 (g.goal - actualOf txs (g.month, g.category)) := by
    show round2 (round2 g.goal - round2 ((mtLookup (monthlyTotals txs)
      (g.month, g.category)).getD 0)) = _
    rw [hact, e1, e2]
  have hstat : (compRow (monthlyTotals txs) g).status =
      if 0 ≤ round2 (g.goal - actualOf txs (g.month, g.category)) then
        "Under Budget" else "Over Budget" := by
    show (if 0 ≤ round2 (round2 g.goal - round2 ((mtLookup (monthlyTotals txs)
        (g.month, g.category)).getD 0)) then "Under Budget" else "Over Budget") = _
    rw [hact, e1, e2]
  rw [hrow, hrem, hstat]
  refine ⟨rfl, ?_⟩
  split_ifs with h0
  · exact iff_of_true rfl h0
  · exact iff_of_false (by simp) h0

theorem claim_C1_witness :
    ((comparisonRows [goalFood] (monthlyTotals [txFood])).getD 0 rowDefault).remaining =
      round2 ((goalFood.goal : ℚ) -
        actualOf [txFood] (goalFood.month, goalFood.category)) ∧
    (((comparisonRows [goalFood] (monthlyTotals [txFood])).getD 0 rowDefault).status =
        "Under Budget" ↔
      0 ≤ ((comparisonRows [goalFood] (monthlyTotals [txFood])).getD 0
        rowDefault).remaining) := by
  exact claim_C1_comparison_row [txFood] [goalFood]
    (by intro t ht; simp at ht; subst ht; exact ⟨4250, by norm_num [txFood]⟩)
    (by intro g hgm; simp at hgm; subst hgm; exact ⟨10000, by norm_num [goalFood]⟩)
    0 (by decide)

/-- C9: the comparison table has exactly one row per Goal and no others; row
fields originate from the goal, and a goal whose (month, category) pair is
absent from the actuals mapping gets `actual_amount = 0`. Pairs with actuals
but no goal never produce a row, since every row is indexed by a goal. -/
theorem claim_C9_rows_goal_anchored (goals : List GoalRow)
    (mt : List ((String × String) × ℚ)) :
    (comparisonRows goals mt).length = goals.length ∧
    ∀ i (hi : i < goals.length),
      ((comparisonRows goals mt).getD i rowDefault).goalId = (goals.get ⟨i, hi⟩).id ∧
      ((comparisonRows goals mt).getD i rowDefault).month = (goals.get ⟨i, hi⟩).month ∧
      ((comparisonRows goals mt).getD i rowDefault).category =
        (goals.get ⟨i, hi⟩).category ∧
      (mtLookup mt ((goals.get ⟨i, hi⟩).month, (goals.get ⟨i, hi⟩).category) = none →
        ((comparisonRows goals mt).getD i rowDefault).actualAmt = 0) := by
  constructor
  · simp [comparisonRows]
  · intro i hi
    have hrow := @comparisonRows_getD goals mt i hi
    rw [hrow]
    refine ⟨rfl, rfl, rfl, ?_⟩
    intro hnone
    show round2 ((mtLookup mt _).getD 0) = 0
    rw [hnone]
    simpa using round2_zero

theorem claim_C9_witness :
    (comparisonRows [goalFood] []).length = [goalFood].length ∧
    ((comparisonRows [goalFood] []).getD 0 rowDefault).goalId = goalFood.id ∧
    ((comparisonRows [goalFood] []).getD 0 rowDefault).month = goalFood.month ∧
    ((comparisonRows [goalFood] []).getD 0 rowDefault).category = goalFood.category ∧
    ((comparisonRows [goalFood] []).getD 0 rowDefault).actualAmt = 0 := by
  have h := claim_C9_rows_goal_anchored [goalFood] []
  have h0 := h.2 0 (by decide)
  exact ⟨h.1, h0.1, h0.2.1, h0.2.2.1, h0.2.2.2 rfl⟩

theorem parseMoney_ok_of (label s : String) (x : ℚ) (htrim : pyStrip s ≠ "")
    (hpf : pyFloat s = some (PyNum.fin x)) (hx0 : 0 ≤ x) (hx7 : x ≤ 10000000) :
    parseMoney label (some s) = Except.ok (round2 x) := by
  simp only [parseMoney]
  rw [if_neg htrim, hpf]
  simp only [parseMoneyNum]
  rw [if_neg (not_lt.mpr hx0)]
  rw [if_neg (by rw [abs_of_nonneg hx0]; exact not_lt.mpr hx7)]

/-- C8: a money-field input is accepted exactly when it is present, parses as
a (finite) number, is non-negative and at most 10,000,000; an accepted value
is returned rounded to 2 decimal places; and a rejected value yields a
validation message on which the transaction mutation aborts with the store
unchanged. -/
theorem claim_C8_money_validation (vs : Option String) :
    ((∃ q, parseMoney "Amount" vs = Except.ok q) ↔
      (∃ s, vs = some s ∧ pyStrip s ≠ "" ∧ ∃ x, pyFloat s = some (PyNum.fin x) ∧
        0 ≤ x ∧ x ≤ 10000000)) ∧
    (∀ s x, vs = some s → pyStrip s ≠ "" → pyFloat s = some (PyNum.fin x) →
      0 ≤ x → x ≤ 10000000 → parseMoney "Amount" vs = Except.ok (round2 x)) ∧
    (∀ m u db dateStr descStr catStr editId, parseMoney "Amount" vs = Except.error m →
      addTxRoute u db vs dateStr descStr catStr editId = (db, m)) := by
  refine ⟨⟨?_, ?_⟩, ?_, ?_⟩
  · rintro ⟨q, hq⟩
    cases vs with
    | none => exact absurd hq (by simp [parseMoney])
    | some s =>
      simp only [parseMoney] at hq
      by_cases htrim : pyStrip s = ""
      · rw [if_pos htrim] at hq
        exact absurd hq (by simp)
      · rw [if_neg htrim] at hq
        cases hpf : pyFloat s with
        | none => rw [hpf] at hq; exact absurd hq (by simp [parseMoneyNum])
        | some v =>
          rw [hpf] at hq
          cases v with
          | infVal => exact absurd hq (by simp [parseMoneyNum])
          | nanVal => exact absurd hq (by simp [parseMoneyNum])
          | fin x =>
            simp only [parseMoneyNum] at hq
            by_cases hneg : x < 0
            · rw [if_pos hneg] at hq; exact absurd hq (by simp)
            · rw [if_neg hneg] at hq
              by_cases hbig : 10000000 < |x|
              · rw [if_pos hbig] at hq; exact absurd hq (by simp)
              · refine ⟨s, rfl, htrim, x, hpf, not_lt.mp hneg, ?_⟩
                have := not_lt.mp hbig
                rwa [abs_of_nonneg (not_lt.mp hneg)] at this
  · rintro ⟨s, rfl, htrim, x, hpf, hx0, hx7⟩
    exact ⟨round2 x, parseMoney_ok_of "Amount" s x htrim hpf hx0 hx7⟩
  · intro s x hs htrim hpf hx0 hx7
    rw [hs]
    exact parseMoney_ok_of "Amount" s x htrim hpf hx0 hx7
  · intro m u db dateStr descStr catStr editId hm
    simp only [addTxRoute]
    rw [hm]

theorem claim_C8_witness :
    parseMoney "Amount" (some "10000001") =
      Except.error "Amount is unreasonably large (>10,000,000)." ∧
    addTxRoute 1 (mkDB [] [] []) (some "10000001") "2024-03-15" "d" "Food" none =
      (mkDB [] [] [], "Amount is unreasonably large (>10,000,000).") := by
  have hdv : digitsVal ['1', '0', '0', '0', '0', '0', '0', '1'] = 10000001 := by decide
  have hval : decValue 1 ['1', '0', '0', '0', '0', '0', '0', '1'] [] 0 = 10000001 := by
    rw [decValue, hdv]
    rw [show digitsVal [] = 0 from rfl]
    norm_num
  have hpf : pyFloat "10000001" = some (PyNum.fin 10000001) := by
    calc pyFloat "10000001"
        = some (PyNum.fin (decValue 1 ['1', '0', '0', '0', '0', '0', '0', '1'] [] 0)) :=
          rfl
      _ = some (PyNum.fin 10000001) := by rw [hval]
  have hrej : parseMoney "Amount" (some "10000001") =
      Except.error "Amount is unreasonably large (>10,000,000)." := by
    simp only [parseMoney]
    rw [if_neg (by decide : ¬ pyStrip "10000001" = ""), hpf]
    simp only [parseMoneyNum]
    rw [if_neg (by norm_num : ¬ (10000001 : ℚ) < 0)]
    rw [if_pos (by rw [abs_of_nonneg (by norm_num : (0 : ℚ) ≤ 10000001)]; norm_num)]
    rfl
  exact ⟨hrej, (claim_C8_money_validation (some "10000001")).2.2 _ 1 (mkDB [] [] [])
    "2024-03-15" "d" "Food" none hrej⟩

theorem any_of_firstIdx {α : Type} (p : α → Bool) :
    ∀ (l : List α) (j : ℕ), firstIdx p l = some j → l.any p = true
  | [], j, h => by simp [firstIdx] at h
  | a :: t, j, h => by
    by_cases hpa : p a
    · simp [hpa]
    · simp only [firstIdx, if_neg hpa, Option.map_eq_some'] at h
      obtain ⟨j', hj', _⟩ := h
      simp [List.any_cons, any_of_firstIdx p t j' hj']

theorem updateFirst_map_eq {α β : Type} (p : α → Bool) (f : α → α) (key : α → β)
    (hkey : ∀ a, key (f a) = key a) :
    ∀ l : List α, (updateFirst p f l).map key = l.map key
  | [] => rfl
  | a :: t => by
    by_cases hpa : p a
    · simp [updateFirst, hpa, hkey]
    · simp [updateFirst, hpa, updateFirst_map_eq p f key hkey t]

theorem updateFirst_getD_at {α : Type} (p : α → Bool) (f : α → α) (d : α) :
    ∀ (l : List α) (j : ℕ), firstIdx p l = some j →
      (updateFirst p f l).getD j d = f (l.getD j d)
  | [], j, h => by simp [firstIdx] at h
  | a :: t, j, h => by
    by_cases hpa : p a
    · simp only [firstIdx, if_pos hpa, Option.some.injEq] at h
      subst h
      simp only [updateFirst, if_pos hpa, List.getD_cons_zero]
    · simp only [firstIdx, if_neg hpa, Option.map_eq_some'] at h
      obtain ⟨j', hj', rfl⟩ := h
      simp only [updateFirst, if_neg hpa, List.getD_cons_succ]
      exact updateFirst_getD_at p f d t j' hj'

theorem updateFirst_getD_ne {α : Type} (p : α → Bool) (f : α → α) (d : α) :
    ∀ (l : List α) (j k : ℕ), firstIdx p l = some j → k ≠ j →
      (updateFirst p f l).getD k d = l.getD k d
  | [], j, k, h, _ => by simp [firstIdx] at h
  | a :: t, j, k, h, hk => by
    by_cases hpa : p a
    · simp only [firstIdx, if_pos hpa, Option.some.injEq] at h
      subst h
      match k with
      | 0 => exact absurd rfl hk
      | k + 1 => simp only [updateFirst, if_pos hpa, List.getD_cons_succ]
    · simp only [firstIdx, if_neg hpa, Option.map_eq_some'] at h
      obtain ⟨j', hj', rfl⟩ := h
      match k with
      | 0 => simp only [updateFirst, if_neg hpa, List.getD_cons_zero]
      | k + 1 =>
        have hk' : k ≠ j' := fun hc => hk (by rw [hc])
        simp only [updateFirst, if_neg hpa, List.getD_cons_succ]
        exact updateFirst_getD_ne p f d t j' k hj' hk'

/-- C10: when `set_goal` is invoked without an edit id and a goal for the
same (user, month, trimmed category) already exists, only that first matching
row's amount is replaced: the table keeps its length, every row keeps its id,
owner, month and category (so the upsert path never creates a second goal for
the key), every other row is fully untouched, and the matched row's amount
becomes the validated value. -/
theorem claim_C10_upsert_updates_in_place (u : ℕ) (db : DB)
    (goalMonth goalCat : String) (amountStr : Option String) (amt : ℚ) (j : ℕ)
    (hamt : parseMoney "Goal Amount" amountStr = Except.ok amt)
    (hj : firstIdx (goalKeyMatch u goalMonth (pyStrip goalCat)) db.goals = some j) :
    ((setGoalRoute u db goalMonth goalCat amountStr none).1).goals.length =
      db.goals.length ∧
    ((setGoalRoute u db goalMonth goalCat amountStr none).1).goals.map
        (fun g => (g.id, g.userId, g.month, g.category)) =
      db.goals.map (fun g => (g.id, g.userId, g.month, g.category)) ∧
    (((setGoalRoute u db goalMonth goalCat amountStr none).1).goals.getD j
        goalDefault).goal = amt ∧
    (∀ k, k ≠ j →
      ((setGoalRoute u db goalMonth goalCat amountStr none).1).goals.getD k
          goalDefault =
        db.goals.getD k goalDefault) := by
  have hroute : setGoalRoute u db goalMonth goalCat amountStr none =
      setGoalApply u db goalMonth (pyStrip goalCat) amt none := by
    simp only [setGoalRoute]
    rw [hamt]
  have hany := any_of_firstIdx _ _ _ hj
  have hgoals : (setGoalApply u db goalMonth (pyStrip goalCat) amt none).1.goals =
      updateFirst (goalKeyMatch u goalMonth (pyStrip goalCat))
        (fun g => { g with goal := amt }) db.goals := by
    simp only [setGoalApply]
    rw [if_pos hany]
  rw [hroute, hgoals]
  refine ⟨?_, ?_, ?_, ?_⟩
  · have := congrArg List.length
      (updateFirst_map_eq (goalKeyMatch u goalMonth (pyStrip goalCat))
        (fun g => { g with goal := amt })
        (fun g => (g.id, g.userId, g.month, g.category)) (fun a => rfl) db.goals)
    simpa using this
  · exact updateFirst_map_eq (goalKeyMatch u goalMonth (pyStrip goalCat))
      (fun g => { g with goal := amt })
      (fun g => (g.id, g.userId, g.month, g.category)) (fun a => rfl) db.goals
  · rw [updateFirst_getD_at _ _ _ db.goals j hj]
  · intro k hk
    exact updateFirst_getD_ne _ _ _ db.goals j k hj hk

theorem pyFloat_75 : pyFloat "75" = some (PyNum.fin 75) := by
  have hd : decValue 1 ['7', '5'] [] 0 = 75 := by
    rw [decValue]
    rw [show digitsVal ['7', '5'] = 75 from by decide]
    rw [show digitsVal [] = 0 from rfl]
    norm_num
  calc pyFloat "75" = some (PyNum.fin (decValue 1 ['7', '5'] [] 0)) := rfl
    _ = some (PyNum.fin 75) := by rw [hd]

theorem parseMoney_75 : parseMoney "Goal Amount" (some "75") = Except.ok 75 := by
  have h := parseMoney_ok_of "Goal Amount" "75" 75 (by decide) pyFloat_75
    (by norm_num) (by norm_num)
  rwa [twoDec_round2 ⟨7500, by norm_num⟩] at h

theorem claim_C10_witness :
    ((setGoalRoute 1 (mkDB [] [goalFood] []) "2024-03" "Food" (some "75")
        none).1).goals.length = (mkDB [] [goalFood] []).goals.length ∧
    ((setGoalRoute 1 (mkDB [] [goalFood] []) "2024-03" "Food" (some "75")
        none).1).goals.map (fun g => (g.id, g.userId, g.month, g.category)) =
      (mkDB [] [goalFood] []).goals.map
        (fun g => (g.id, g.userId, g.month, g.category)) ∧
    (((setGoalRoute 1 (mkDB [] [goalFood] []) "2024-03" "Food" (some "75")
        none).1).goals.getD 0 goalDefault).goal = 75 ∧
    ((setGoalRoute 1 (mkDB [] [goalFood] []) "2024-03" "Food" (some "75")
        none).1).goals.getD 1 goalDefault =
      (mkDB [] [goalFood] []).goals.getD 1 goalDefault := by
  have h := claim_C10_upsert_updates_in_place 1 (mkDB [] [goalFood] []) "2024-03"
    "Food" (some "75") 75 0 parseMoney_75 (by decide)
  exact ⟨h.1, h.2.1, h.2.2.1, h.2.2.2 1 (by decide)⟩

/-- C3: on an empty transaction set, or one whose recorded total is zero, the
generator returns the fixed no-data message without contacting the external
service, whatever the service configuration or behaviour. -/
theorem claim_C3_no_data_message (sdk key : Bool) (svc : SvcOutcome) (txs : List Tx)
    (h : txs = [] ∨ sumAmts txs = 0) :
    generateAI sdk key svc txs =
      { text := noDataMsg, flash := none, svcContacted := false } := by
  rcases h with h | h
  · subst h
    rfl
  · simp only [generateAI]
    have hle : sumAmts txs ≤ 0 := le_of_eq h
    simp [hle]

theorem claim_C3_witness :
    generateAI true true (SvcOutcome.ok "anything") [] =
      { text := noDataMsg, flash := none, svcContacted := false } :=
  claim_C3_no_data_message true true (SvcOutcome.ok "anything") [] (Or.inl rfl)

/-- C4: whenever the external call fails — the service raising an exception,
or the SDK/credential being absent — the generator swallows the failure and
returns the deterministic fallback text; the flashed notice is the
quota-specific one exactly for failures carried as a RuntimeError mentioning
"quota exceeded" (which is how `_call_openai` re-labels the service's
insufficient-quota / exceeded-your-current-quota reports), and the generic
service-unavailable one for every other failure, in particular a missing
credential. -/
theorem claim_C4_failure_fallback (sdk key : Bool) (svc : SvcOutcome)
    (txs : List Tx) (hne : txs.isEmpty = false) (hpos : 0 < sumAmts txs)
    (e : PyExc) (herr : callOpenai sdk key svc = Except.error e) :
    (generateAI sdk key svc txs).text = fallbackText txs ∧
    (generateAI sdk key svc txs).flash =
      some (if e.isRuntimeError && strHas (lowerStr e.msg) "quota exceeded" then
        quotaNotice else unavailNotice) ∧
    ((sdk = false ∨ key = false) →
      (generateAI sdk key svc txs).flash = some unavailNotice) ∧
    (∀ rt m, svc = SvcOutcome.raise rt m →
      (strHas m "insufficient_quota" || strHas m "exceeded your current quota") = true →
      sdk = true → key = true →
      (generateAI sdk key svc txs).flash = some quotaNotice) := by
  have hnle : ¬ sumAmts txs ≤ 0 := not_le.mpr hpos
  have hgen : generateAI sdk key svc txs =
      { text := fallbackText txs,
        flash := some (if e.isRuntimeError && strHas (lowerStr e.msg) "quota exceeded"
          then quotaNotice else unavailNotice),
        svcContacted := sdk && key } := by
    simp only [generateAI]
    rw [herr]
    simp [hne, hnle]
  refine ⟨by rw [hgen], by rw [hgen], ?_, ?_⟩
  · intro hsk
    have hmiss : e = excMissing := by
      rcases hsk with h | h <;> subst h <;>
        · simp only [callOpenai] at herr
          simp at herr
          exact herr.symm
    rw [hgen, hmiss]
    norm_num
    decide
  · intro rt m hsvc hquota hsdk hkey
    subst hsvc hsdk hkey
    have he : e = excQuota := by
      simp only [callOpenai] at herr
      rw [hquota] at herr
      simp at herr
      exact herr.symm
    rw [hgen, he]
    norm_num
    decide

theorem claim_C4_witness :
    (generateAI true true (SvcOutcome.raise false "Error 429: insufficient_quota")
      [txJan]).text = fallbackText [txJan] ∧
    (generateAI true true (SvcOutcome.raise false "Error 429: insufficient_quota")
      [txJan]).flash =
      some (if excQuota.isRuntimeError && strHas (lowerStr excQuota.msg)
          "quota exceeded" then quotaNotice else unavailNotice) ∧
    (generateAI true true (SvcOutcome.raise false "Error 429: insufficient_quota")
      [txJan]).flash = some quotaNotice := by
  have hpos : 0 < sumAmts [txJan] := by
    have e : sumAmts [txJan] = 100 + 0 := rfl
    rw [e]
    norm_num
  have h := claim_C4_failure_fallback true true
    (SvcOutcome.raise false "Error 429: insufficient_quota") [txJan] rfl hpos
    excQuota rfl
  exact ⟨h.1, h.2.1, h.2.2.2 false "Error 429: insufficient_quota" rfl (by decide)
    rfl rfl⟩

theorem trendTip_of_lastTwo {txs : List Tx} {m1 m2 : String}
    (h : lastTwoMonths txs = [m1, m2]) : trendTip txs = trendOf txs m1 m2 := by
  simp only [trendTip]
  rw [h]

/-- C7: for transactions with parseable dates spanning exactly two distinct
months, the fallback trend statement reports the direction (up, down or flat
by the sign of `delta = latest - previous`) and the magnitude
`pct = delta / previous * 100` (`0` when the previous month's total is zero)
formatted to one decimal; with fewer than two distinct months it asks for
another month of data. -/
theorem claim_C7_trend_statement (txs : List Tx)
    (_hall : ∀ t ∈ txs, (parseYMD t.date).isSome = true) :
    (∀ m1 m2, monthKeys txs = [m1, m2] →
      trendTip txs =
        "Spending is " ++
          (if 0 < monthSum txs m2 - monthSum txs m1 then "up"
           else if monthSum txs m2 - monthSum txs m1 < 0 then "down" else "flat") ++
          " " ++
          fmt1 |if monthSum txs m1 = 0 then 0
                else (monthSum txs m2 - monthSum txs m1) / monthSum txs m1 * 100| ++
          "% vs " ++ m1 ++ ".") ∧
    ((monthKeys txs).length < 2 →
      trendTip txs = "Add another month of data to see a trend.") := by
  constructor
  · intro m1 m2 hms
    have hlast : lastTwoMonths txs = [m1, m2] := by
      simp [lastTwoMonths, hms]
    rw [trendTip_of_lastTwo hlast]
    simp only [trendOf]
    congr 1
    · congr 1
      congr 1
      by_cases h1 : monthSum txs m1 = 0
      · simp [h1]
      · simp [h1]
  · intro hlen
    match hms : monthKeys txs with
    | [] =>
      have hlast : lastTwoMonths txs = [] := by simp [lastTwoMonths, hms]
      simp only [trendTip]
      rw [hlast]
    | [m] =>
      have hlast : lastTwoMonths txs = [m] := by simp [lastTwoMonths, hms]
      simp only [trendTip]
      rw [hlast]
    | a :: b :: t =>
      rw [hms] at hlen
      simp only [List.length_cons] at hlen
      omega

theorem claim_C7_witness :
    trendTip [txJan, txFeb] = "Spending is up 50.0% vs 2024-01." := by
  have h := claim_C7_trend_statement [txJan, txFeb] (by decide)
  have h1 := h.1 "2024-01" "2024-02" (by decide)
  have hs1 : monthSum [txJan, txFeb] "2024-01" = 100 := by
    have e : monthSum [txJan, txFeb] "2024-01" = 100 + 0 := rfl
    rw [e]
    norm_num
  have hs2 : monthSum [txJan, txFeb] "2024-02" = 150 := by
    have e : monthSum [txJan, txFeb] "2024-02" = 150 + 0 := rfl
    rw [e]
    norm_num
  rw [h1, hs1, hs2]
  have hcond1 : (0 : ℚ) < 150 - 100 := by norm_num
  have hpct : ((150 : ℚ) - 100) / 100 * 100 = 50 := by norm_num
  have habs : |(50 : ℚ)| = 50 := by norm_num
  have hf : fmt1 (50 : ℚ) = "50.0" := by
    have hx : (50 : ℚ) * (10 : ℚ) ^ (1 : ℕ) = ((500 : ℤ) : ℚ) := by norm_num
    simp only [fmt1, fmtFixed]
    rw [hx, rhe_intCast]
    decide
  rw [if_pos hcond1]
  rw [if_neg (by norm_num : ¬ (100 : ℚ) = 0)]
  rw [hpct, habs, hf]
  decide

theorem maxS_cases (a b : String) : maxS a b = a ∨ maxS a b = b := by
  unfold maxS
  split
  · exact Or.inr rfl
  · exact Or.inl rfl

theorem foldl_maxS_mem : ∀ (l : List String) (init : String),
    l.foldl maxS init = init ∨ l.foldl maxS init ∈ l
  | [], _ => Or.inl rfl
  | a :: t, init => by
    rw [List.foldl_cons]
    rcases foldl_maxS_mem t (maxS init a) with h | h
    · rcases maxS_cases init a with h2 | h2
      · exact Or.inl (by rw [h, h2])
      · exact Or.inr (by rw [h, h2]; exact List.mem_cons_self a t)
    · exact Or.inr (List.mem_cons_of_mem a h)

theorem monthLabel_ne_empty (s : String) : monthLabel s ≠ "" := by
  unfold monthLabel
  cases hp : parseYMD s with
  | none => decide
  | some v =>
    obtain ⟨y, m, d⟩ := v
    intro hcontra
    have hd := congrArg String.data hcontra
    simp [String.data_append] at hd

theorem foldl_maxS_ne_empty (l : List String) (hne : l ≠ [])
    (hall : ∀ x ∈ l, x ≠ "") : l.foldl maxS (l.headD "") ≠ "" := by
  rcases foldl_maxS_mem l (l.headD "") with h | h
  · rw [h]
    cases l with
    | nil => exact absurd rfl hne
    | cons a t => exact hall a (List.mem_cons_self a t)
  · exact hall _ h

theorem maxMonth_ne_empty (txs : List Tx) (h : txs ≠ []) : maxMonth txs ≠ "" := by
  unfold maxMonth
  apply foldl_maxS_ne_empty
  · simpa using h
  · intro x hx
    obtain ⟨t, _, rfl⟩ := List.mem_map.mp hx
    exact monthLabel_ne_empty t.date

/-- C2: when the most recent cache row for (user, latest month) is younger
than 24 hours and no forced refresh was requested, the insights route returns
the cached text without running the generator (hence without the external
service) and without touching the store; with a forced refresh the generator
runs regardless of the cache. -/
theorem claim_C2_cache_freshness (u : ℕ) (now : ℤ) (sdk key : Bool)
    (svc : SvcOutcome) (db : DB) (c : CacheRow)
    (hne : (db.txs.filter (fun t => t.userId == u)).isEmpty = false)
    (hmr : mostRecent (db.cache.filter (fun x => x.userId == u &&
      x.month == maxMonth (db.txs.filter (fun t => t.userId == u)))) = some c)
    (hfresh : now - c.createdAt < 86400) :
    insightsRoute u now sdk key svc false db =
      { db := db, text := c.text, genInvoked := false, flash := none } ∧
    (insightsRoute u now sdk key svc true db).genInvoked = true := by
  have htxsne : db.txs.filter (fun t => t.userId == u) ≠ [] := by
    intro hc
    rw [hc] at hne
    simp at hne
  have hmne := maxMonth_ne_empty _ htxsne
  constructor
  · simp only [insightsRoute]
    rw [hne]
    rw [if_neg (by simp : ¬ (false = true))]
    rw [if_pos ⟨hmne, trivial⟩]
    rw [hmr]
    simp [hfresh]
  · simp only [insightsRoute]
    rw [hne]
    rw [if_neg (by simp : ¬ (false = true))]
    simp

theorem claim_C2_witness :
    insightsRoute 1 1000 true true (SvcOutcome.ok "x") false
      (mkDB [txJan] [] [cacheJan]) =
      { db := mkDB [txJan] [] [cacheJan], text := cacheJan.text,
        genInvoked := false, flash := none } ∧
    (insightsRoute 1 1000 true true (SvcOutcome.ok "x") true
      (mkDB [txJan] [] [cacheJan])).genInvoked = true :=
  claim_C2_cache_freshness 1 1000 true true (SvcOutcome.ok "x")
    (mkDB [txJan] [] [cacheJan]) cacheJan rfl rfl (by decide)

/-- C5 (code bug): a transaction with an unparseable date is NOT excluded
from the aggregation — `astype(str)` already turned its NaT month into the
string "NaT", so `dropna` removes nothing and the transaction's amount is
grouped under the (month="NaT", category) key: a single $10 "Food"
transaction dated "not-a-date" yields the group (("NaT", "Food"), 10). -/
theorem claim_C5_unparseable_date_grouped_under_nat :
    monthlyTotals [txBadDate] =
      [(("NaT", "Food"), keySum [txBadDate] ("NaT", "Food"))] ∧
    keySum [txBadDate] ("NaT", "Food") = 10 := by
  constructor
  · rfl
  · have e : keySum [txBadDate] ("NaT", "Food") = 10 + 0 := rfl
    rw [e]
    norm_num

/-- C6 (code bug): with transactions but no parseable date, the latest-month
computation yields the truthy string "NaT" rather than nothing, so the
insights route does NOT skip caching: it performs the cache lookup under
month "NaT" (returning a fresh enough cached row instead of generating), and
on a miss it writes a new cache row under month "NaT". -/
theorem claim_C6_nat_month_still_cached :
    insightsRoute 1 1000 true true (SvcOutcome.ok "fresh text") false
      (mkDB [txBadDate] [] [cacheNaT]) =
      { db := mkDB [txBadDate] [] [cacheNaT], text := cacheNaT.text,
        genInvoked := false, flash := none } ∧
    ((insightsRoute 1 1000 true true (SvcOutcome.ok "fresh text") false
        (mkDB [txBadDate] [] [])).db.cache.map
      (fun r => (r.userId, r.month, r.createdAt))) = [(1, "NaT", 1000)] ∧
    (insightsRoute 1 1000 true true (SvcOutcome.ok "fresh text") false
      (mkDB [txBadDate] [] [])).genInvoked = true := by
  exact ⟨rfl, rfl, rfl⟩
